import Mathlib

/- Shallow embedding of the RNC (non-conformance report) application
   in app_v27_clean_logo_fix.py: year-scoped report numbering, report
   and evidence storage, lifecycle transitions (close / reopen), cost
   code insertion, and CSV bulk exchange. -/

namespace RNC

/-- Python strings are modelled as explicit character lists. -/
abbrev Str := List Char

/-- Whitespace characters removed by the Python method str.strip (ASCII part). -/
def isSpaceChar (c : Char) : Bool :=
  c == ' ' || c == '\t' || c == '\n' || c == '\r' || c == '\x0b' || c == '\x0c'

/-- Python str.strip: drop whitespace from both ends. -/
def pyStrip (s : Str) : Str :=
  ((s.dropWhile isSpaceChar).reverse.dropWhile isSpaceChar).reverse

/-- Decimal digit character for a value below ten. -/
def digitChar (n : Nat) : Char := Char.ofNat (48 + n)

/-- ASCII decimal digit test, the reading of the regex class backslash-d used here. -/
def isDigitChar (c : Char) : Bool := 48 ≤ c.toNat && c.toNat ≤ 57

/-- Numeric value of a digit character. -/
def digitVal (c : Char) : Nat := c.toNat - 48

/-- Fuel-driven decimal rendering (structurally recursive so it reduces in the kernel). -/
def natCharsAux : Nat → Nat → Str
  | 0, _ => []
  | fuel + 1, n =>
    if n < 10 then [digitChar n] else natCharsAux fuel (n / 10) ++ [digitChar (n % 10)]

/-- Decimal rendering of a natural number, as Python str(n). -/
def natChars (n : Nat) : Str := natCharsAux (n + 1) n

/-- Value of a digit string, as Python int on a digit-only string. -/
def digitsVal (l : Str) : Nat := l.foldl (fun a c => 10 * a + digitVal c) 0

/-- Zero padding to width three, as the Python format 03d (it widens past 999). -/
def pad3 (l : Str) : Str := List.replicate (3 - l.length) '0' ++ l

/-- The report number format: year, hyphen, sequence number padded to three digits. -/
def fmtRnc (year seq : Nat) : Str := natChars year ++ '-' :: pad3 (natChars seq)

/-- The anchored regex match of next_rnc_num_for_date together with the int
conversion of the captured group: when s is exactly the decimal year, a hyphen,
and a nonempty run of digits, return the value of that digit run. -/
def matchYearNum (year : Nat) (s : Str) : Option Nat :=
  let pre := natChars year ++ ['-']
  if s.take pre.length = pre ∧ s.drop pre.length ≠ [] ∧ (s.drop pre.length).all isDigitChar
  then some (digitsVal (s.drop pre.length))
  else none

/-- The SQL filter of next_rnc_num_for_date (rnc_num LIKE year then hyphen then
percent): the raw value begins with the decimal year and a hyphen. -/
def likeYear (year : Nat) (v : Str) : Bool :=
  decide (v.take (natChars year ++ ['-']).length = natChars year ++ ['-'])

/-- Python max over a list of naturals (zero default is never taken on the
nonempty lists the code applies it to). -/
def listMax (l : List Nat) : Nat := l.foldl Max.max 0

/-- The numeric suffixes scanned by next_rnc_num_for_date: rows surviving the
SQL LIKE filter, then the skip of falsy (empty) values, then the anchored
regex applied to the stripped value. -/
def rncSeqs (year : Nat) (vals : List Str) : List Nat :=
  ((vals.filter (likeYear year)).filter (fun v => !v.isEmpty)).filterMap
    (fun v => matchYearNum year (pyStrip v))

/-- Core of next_rnc_num_for_date: the next report number for a year, given the
stored rnc_num column values. -/
def nextRncNum (year : Nat) (vals : List Str) : Str :=
  let seqs := rncSeqs year vals
  fmtRnc year (if seqs = [] then 1 else listMax seqs + 1)

/-- A calendar date as the Python datetime.date values used by the app;
only the year field is read by the numbering logic. -/
structure PyDate where
  year : Nat
  month : Nat
  day : Nat
deriving DecidableEq, Repr

/-- One row of the inspecoes table (nullable TEXT columns are Option;
timestamps are kept as opaque strings). -/
structure Inspecao where
  id : Nat
  data : Option String
  rnc_num : Option Str
  emitente : Option String
  area : Option String
  pep : Option String
  titulo : Option String
  responsavel : Option String
  descricao : Option String
  referencias : Option String
  causador : Option String
  processo_envolvido : Option String
  origem : Option String
  acao_correcao : Option String
  severidade : Option String
  categoria : Option String
  acoes : Option String
  status : Option String
  encerrada_em : Option String
  encerrada_por : Option String
  encerramento_obs : Option String
  eficacia : Option String
  responsavel_acao : Option String
  reaberta_em : Option String
  reaberta_por : Option String
  reabertura_motivo : Option String
deriving DecidableEq, Repr

/-- One row of the fotos table. -/
structure Foto where
  id : Nat
  inspecao_id : Nat
  blob : String
  filename : String
  mimetype : String
  tipo : String
deriving DecidableEq, Repr

/-- An uploaded image as produced by files_to_images: blob, name, mime. -/
structure ImgUp where
  blob : String
  name : String
  mime : String
deriving DecidableEq, Repr

/-- The record bound by the INSERT statement of insert_inspecao
(all eighteen named parameters, in the same roles). -/
structure InsRec where
  data : Option String
  rnc_num : Option Str
  emitente : Option String
  area : Option String
  pep : Option String
  titulo : Option String
  responsavel : Option String
  descricao : Option String
  referencias : Option String
  causador : Option String
  processo_envolvido : Option String
  origem : Option String
  acao_correcao : Option String
  severidade : Option String
  categoria : Option String
  acoes : Option String
  status : Option String
  responsavel_acao : Option String
deriving DecidableEq, Repr

/-- One normalized CSV row, after normalize_df_cols: every expected column
except the id (which upsert_from_csv never reads from the row). -/
structure CsvRow where
  data : Option String
  rnc_num : Option Str
  emitente : Option String
  area : Option String
  pep : Option String
  titulo : Option String
  responsavel : Option String
  descricao : Option String
  referencias : Option String
  causador : Option String
  processo_envolvido : Option String
  origem : Option String
  acao_correcao : Option String
  severidade : Option String
  categoria : Option String
  acoes : Option String
  status : Option String
  encerrada_em : Option String
  encerrada_por : Option String
  encerramento_obs : Option String
  eficacia : Option String
  responsavel_acao : Option String
  reaberta_em : Option String
  reaberta_por : Option String
  reabertura_motivo : Option String
deriving DecidableEq, Repr

/-- The SQLite database state: the two tables the claims touch, the peps
table, and the AUTOINCREMENT counters. Rows are kept in insertion order,
which is ascending id order, so ORDER BY id is the list order and
ORDER BY id DESC is the reversed list. -/
structure DB where
  inspecoes : List Inspecao
  fotos : List Foto
  peps : List Str
  nextInspecaoId : Nat
  nextFotoId : Nat
deriving DecidableEq, Repr

/-- The rnc_num column as scanned by the SQL of next_rnc_num_for_date
(NULL values never survive the LIKE filter, so dropping them here is the
same filter written in two steps). -/
def storedNums (db : DB) : List Str := db.inspecoes.filterMap (·.rnc_num)

/-- next_rnc_num_for_date: next report number for the year of the given date. -/
def next_rnc_num_for_date (d : PyDate) (db : DB) : Str :=
  nextRncNum d.year (storedNums db)

/-- The filter and cleanup of add_peps_bulk: keep candidates that are truthy
and whose strip is nonempty, replacing each by its stripped form. -/
def cleanCodes (codes : List Str) : List Str :=
  (codes.filter (fun c => !c.isEmpty && !(pyStrip c).isEmpty)).map pyStrip

/-- INSERT OR IGNORE INTO peps: append the code unless it is already stored. -/
def pepInsertIgnore (peps : List Str) (code : Str) : List Str :=
  if code ∈ peps then peps else peps ++ [code]

/-- add_peps_bulk: clean the candidates, insert each with OR IGNORE, and
return the loop counter, which is incremented once per attempted insert
(INSERT OR IGNORE raises no error on a duplicate, so the except branch is
never taken and every cleaned candidate is counted). -/
def add_peps_bulk (codes : List Str) (db : DB) : DB × Nat :=
  let cs := cleanCodes codes
  if cs = [] then (db, 0)
  else ({ db with peps := cs.foldl pepInsertIgnore db.peps }, cs.length)

/-- The fotos rows created by a loop of INSERT statements starting at the
given AUTOINCREMENT id, all owned by one report and one category tag. -/
def mkFotos : Nat → Nat → String → List ImgUp → List Foto
  | _, _, _, [] => []
  | fid, iid, tipo, img :: rest =>
    ⟨fid, iid, img.blob, img.name, img.mime, tipo⟩ :: mkFotos (fid + 1) iid tipo rest

/-- add_photos: insert one fotos row per image, tagged with the category. -/
def add_photos (iid : Nat) (images : List ImgUp) (tipo : String) (db : DB) : DB :=
  { db with fotos := db.fotos ++ mkFotos db.nextFotoId iid tipo images,
            nextFotoId := db.nextFotoId + images.length }

/-- insert_inspecao: insert the report row (lifecycle audit columns start
NULL) and, inside the same transaction, one fotos row per image tagged
abertura; return the new state and the fresh id. -/
def insert_inspecao (rec : InsRec) (images : List ImgUp) (db : DB) : DB × Nat :=
  let iid := db.nextInspecaoId
  let row : Inspecao :=
    { id := iid, data := rec.data, rnc_num := rec.rnc_num, emitente := rec.emitente,
      area := rec.area, pep := rec.pep, titulo := rec.titulo,
      responsavel := rec.responsavel, descricao := rec.descricao,
      referencias := rec.referencias, causador := rec.causador,
      processo_envolvido := rec.processo_envolvido, origem := rec.origem,
      acao_correcao := rec.acao_correcao, severidade := rec.severidade,
      categoria := rec.categoria, acoes := rec.acoes, status := rec.status,
      encerrada_em := none, encerrada_por := none, encerramento_obs := none,
      eficacia := none, responsavel_acao := rec.responsavel_acao,
      reaberta_em := none, reaberta_por := none, reabertura_motivo := none }
  let d1 : DB := { db with inspecoes := db.inspecoes ++ [row],
                           nextInspecaoId := iid + 1 }
  (add_photos iid images "abertura" d1, iid)

/-- fetch_photos: evidence rows of one report and one category, in id order
(the list is kept in id order, so the filter is already ordered). -/
def fetch_photos (iid : Nat) (tipo : String) (db : DB) : List Foto :=
  db.fotos.filter (fun f => f.inspecao_id == iid && f.tipo == tipo)

/-- The UPDATE statement of encerrar_inspecao: on every row whose id matches,
set the status to Encerrada and the four closing audit columns. -/
def encerrarUpdate (iid : Nat) (por obs ef now : String) (db : DB) : DB :=
  { db with inspecoes := db.inspecoes.map (fun r =>
      if r.id = iid then
        { r with status := some "Encerrada", encerrada_em := some now,
                 encerrada_por := some por, encerramento_obs := some obs,
                 eficacia := some ef }
      else r) }

/-- encerrar_inspecao: the closing UPDATE, then (only when images were given)
a second call to add_photos with the encerramento tag. -/
def encerrar_inspecao (iid : Nat) (por obs ef : String) (images : List ImgUp)
    (now : String) (db : DB) : DB :=
  let d1 := encerrarUpdate iid por obs ef now db
  if images.isEmpty then d1 else add_photos iid images "encerramento" d1

/-- The UPDATE statement of reabrir_inspecao: on every row whose id matches,
set the status to the In-Action value and the three reopening audit columns,
touching no other column. -/
def reabrirUpdate (iid : Nat) (por motivo now : String) (db : DB) : DB :=
  { db with inspecoes := db.inspecoes.map (fun r =>
      if r.id = iid then
        { r with status := some "Em ação", reaberta_em := some now,
                 reaberta_por := some por, reabertura_motivo := some motivo }
      else r) }

/-- reabrir_inspecao: the reopening UPDATE, then (only when images were given)
a second call to add_photos with the reabertura tag. -/
def reabrir_inspecao (iid : Nat) (por motivo : String) (images : List ImgUp)
    (now : String) (db : DB) : DB :=
  let d1 := reabrirUpdate iid por motivo now db
  if images.isEmpty then d1 else add_photos iid images "reabertura" d1

/-- Committed states of insert_inspecao: one with-engine-begin block, hence
one transaction. -/
def insertCommits (rec : InsRec) (images : List ImgUp) (db : DB) : List DB :=
  [(insert_inspecao rec images db).1]

/-- Committed states of encerrar_inspecao: the UPDATE commits in its own
with-engine-begin block, and add_photos then opens a second block, so with
images present two states become visible in turn. -/
def encerrarCommits (iid : Nat) (por obs ef : String) (images : List ImgUp)
    (now : String) (db : DB) : List DB :=
  let d1 := encerrarUpdate iid por obs ef now db
  if images.isEmpty then [d1] else [d1, add_photos iid images "encerramento" d1]

/-- Committed states of reabrir_inspecao, mirroring its two with blocks. -/
def reabrirCommits (iid : Nat) (por motivo : String) (images : List ImgUp)
    (now : String) (db : DB) : List DB :=
  let d1 := reabrirUpdate iid por motivo now db
  if images.isEmpty then [d1] else [d1, add_photos iid images "reabertura" d1]

/-- The UI guard of the reopen form: the button is enabled exactly when the
displayed status equals Encerrada (a NULL status compares unequal). -/
def can_reopen (status : Option String) : Bool := status == some "Encerrada"

/-- The reopen form as a whole: the submit button is disabled unless
can_reopen holds, so the core operation runs only for a Closed row. -/
def uiReabrir (r : Inspecao) (por motivo : String) (images : List ImgUp)
    (now : String) (db : DB) : DB :=
  if can_reopen r.status then reabrir_inspecao r.id por motivo images now db else db

/-- The expected CSV columns, in the fixed order used by the exchange code. -/
def EXPECTED_COLS : List String :=
  ["id", "data", "rnc_num", "emitente", "area", "pep", "titulo", "responsavel",
   "descricao", "referencias", "causador", "processo_envolvido", "origem",
   "acao_correcao", "severidade", "categoria", "acoes", "status", "encerrada_em",
   "encerrada_por", "encerramento_obs", "eficacia", "responsavel_acao",
   "reaberta_em", "reaberta_por", "reabertura_motivo"]

/-- The column-name alias table of normalize_df_cols. -/
def colAliases : List (String × String) :=
  [("rnc nº", "rnc_num"), ("rnc_no", "rnc_num"), ("rnc_no.", "rnc_num"),
   ("rnc_numero", "rnc_num"), ("rnc", "rnc_num"),
   ("responsavel_inspecao", "responsavel"), ("responsável", "responsavel"),
   ("categoria_risco", "severidade"), ("pep_descricao", "pep")]

/-- The key computed for a column name by normalize_df_cols: strip, lower,
replace spaces with underscores. -/
def colKey (c : String) : String :=
  String.mk (((pyStrip c.toList).map Char.toLower).map fun ch =>
    if ch == ' ' then '_' else ch)

/-- normalize_df_cols on one column name: the key, replaced by its alias when
the alias table has one. -/
def normalizeCol (c : String) : String :=
  let k := colKey c
  (((colAliases.find? (fun p => p.1 == k)).map (·.2)).getD k)

/-- The key a stored report contributes to exist_map in upsert_from_csv:
its number with NULL read as the empty string, stripped. -/
def keyOf (r : Inspecao) : Str := pyStrip (r.rnc_num.getD [])

/-- The key of an incoming CSV row: its number with a missing value read as
the empty string, stripped. -/
def rowKey (row : CsvRow) : Str := pyStrip (row.rnc_num.getD [])

/-- exist_map as a lookup: the Python dict is built by iterating the stored
reports in id order, a later report overwriting an earlier one on the same
key, so a lookup returns the id of the last matching report. -/
def exist_lookup (rs : List Inspecao) (k : Str) : Option Nat :=
  (rs.reverse.find? (fun r => keyOf r == k)).map (·.id)

/-- The UPDATE branch of upsert_from_csv applied to one matched report: set
every expected column except the id from the incoming row (the number column
included). -/
def applyCsv (row : CsvRow) (r : Inspecao) : Inspecao :=
  { id := r.id, data := row.data, rnc_num := row.rnc_num, emitente := row.emitente,
    area := row.area, pep := row.pep, titulo := row.titulo,
    responsavel := row.responsavel, descricao := row.descricao,
    referencias := row.referencias, causador := row.causador,
    processo_envolvido := row.processo_envolvido, origem := row.origem,
    acao_correcao := row.acao_correcao, severidade := row.severidade,
    categoria := row.categoria, acoes := row.acoes, status := row.status,
    encerrada_em := row.encerrada_em, encerrada_por := row.encerrada_por,
    encerramento_obs := row.encerramento_obs, eficacia := row.eficacia,
    responsavel_acao := row.responsavel_acao, reaberta_em := row.reaberta_em,
    reaberta_por := row.reaberta_por, reabertura_motivo := row.reabertura_motivo }

/-- The INSERT branch of upsert_from_csv: a fresh row carrying every expected
column from the incoming row, the number exactly as given. -/
def mkInspecaoFromCsv (iid : Nat) (row : CsvRow) : Inspecao :=
  { id := iid, data := row.data, rnc_num := row.rnc_num, emitente := row.emitente,
    area := row.area, pep := row.pep, titulo := row.titulo,
    responsavel := row.responsavel, descricao := row.descricao,
    referencias := row.referencias, causador := row.causador,
    processo_envolvido := row.processo_envolvido, origem := row.origem,
    acao_correcao := row.acao_correcao, severidade := row.severidade,
    categoria := row.categoria, acoes := row.acoes, status := row.status,
    encerrada_em := row.encerrada_em, encerrada_por := row.encerrada_por,
    encerramento_obs := row.encerramento_obs, eficacia := row.eficacia,
    responsavel_acao := row.responsavel_acao, reaberta_em := row.reaberta_em,
    reaberta_por := row.reaberta_por, reabertura_motivo := row.reabertura_motivo }

/-- One loop iteration of upsert_from_csv: when the row key is truthy and
exist_map (computed once, before the loop) knows it, UPDATE the matched id;
otherwise INSERT a fresh row. -/
def upsertRow (lk : Str → Option Nat) (db : DB) (row : CsvRow) : DB :=
  let k := rowKey row
  match (if k = [] then none else lk k) with
  | some i =>
    { db with inspecoes := db.inspecoes.map (fun r =>
        if r.id = i then applyCsv row r else r) }
  | none =>
    { db with inspecoes := db.inspecoes ++ [mkInspecaoFromCsv db.nextInspecaoId row],
              nextInspecaoId := db.nextInspecaoId + 1 }

/-- upsert_from_csv: build exist_map from the pre-import store, process each
row in order, and return the loop counter, which counts every row (updated
and inserted alike). -/
def upsert_from_csv (rows : List CsvRow) (db : DB) : DB × Nat :=
  (rows.foldl (upsertRow (exist_lookup db.inspecoes)) db, rows.length)

/-- The cell texts pandas read_csv reads back as a missing value (its default
NA sentinel list); a stored NULL also exports as an empty cell, whose text is
in the list, so it reads back as missing too. Through upsert_from_csv a
missing value is stored as NULL. -/
def naStrings : List String :=
  ["", "#N/A", "#N/A N/A", "#NA", "-1.#IND", "-1.#QNAN", "-NaN", "-nan",
   "1.#IND", "1.#QNAN", "<NA>", "N/A", "NA", "NULL", "NaN", "None",
   "n/a", "nan", "null"]

/-- Round trip of one text cell through to_csv and read_csv: a NULL exports
as an empty cell and reads back as missing, a cell whose text is one of the
NA sentinels reads back as missing, and any other text is preserved.
The model keeps cell text verbatim otherwise; numeric-type inference and
delimiter quoting of the CSV layer are outside this embedding. -/
def naCell (v : Option String) : Option String :=
  match v with
  | none => none
  | some s => if s ∈ naStrings then none else some s

/-- The NA-cell coercion on the report-number column, whose values this
embedding keeps as character lists. -/
def naCellChars (v : Option Str) : Option Str :=
  match v with
  | none => none
  | some s => if s ∈ naStrings.map String.toList then none else some s

/-- The date part of a stored timestamp text: timestamps are modelled as
date-then-space-then-time text, so the pandas dt.date accessor keeps what
stands before the first space. -/
def datePart (s : String) : String :=
  String.mk (s.toList.takeWhile (fun c => c != ' '))

/-- fetch_df: every report with every expected column, ordered by id
descending (on the id-ordered list, the reverse), and the data column
truncated to its bare date by the to_datetime with dt.date line — a missing
or unparseable value (modelled by the NA sentinels) stays missing. -/
def fetch_df (db : DB) : List Inspecao :=
  db.inspecoes.reverse.map (fun r => { r with data := (naCell r.data).map datePart })

/-- The fields of one report arranged as an import row (the id column is
exported too but upsert_from_csv never reads it back). This is the pure
projection; the lossy CSV serialization layer is modelled separately by
rowThroughCsv. -/
def toCsvRow (r : Inspecao) : CsvRow :=
  { data := r.data, rnc_num := r.rnc_num, emitente := r.emitente,
    area := r.area, pep := r.pep, titulo := r.titulo,
    responsavel := r.responsavel, descricao := r.descricao,
    referencias := r.referencias, causador := r.causador,
    processo_envolvido := r.processo_envolvido, origem := r.origem,
    acao_correcao := r.acao_correcao, severidade := r.severidade,
    categoria := r.categoria, acoes := r.acoes, status := r.status,
    encerrada_em := r.encerrada_em, encerrada_por := r.encerrada_por,
    encerramento_obs := r.encerramento_obs, eficacia := r.eficacia,
    responsavel_acao := r.responsavel_acao, reaberta_em := r.reaberta_em,
    reaberta_por := r.reaberta_por, reabertura_motivo := r.reabertura_motivo }

/-- One fetched row as upsert_from_csv receives it back after to_csv,
read_csv and normalize_df_cols (the identity on the canonical exported
header, lemma normalizeCol_canonical): every text cell crosses the NA layer;
the date-only data cell is re-parsed by to_datetime and stored back as a
midnight timestamp; the closing and reopening timestamps re-parse to their
stored text, which this embedding models as already canonical. -/
def rowThroughCsv (r : Inspecao) : CsvRow :=
  { data := (naCell r.data).map (fun s => s ++ " 00:00:00"),
    rnc_num := naCellChars r.rnc_num, emitente := naCell r.emitente,
    area := naCell r.area, pep := naCell r.pep, titulo := naCell r.titulo,
    responsavel := naCell r.responsavel, descricao := naCell r.descricao,
    referencias := naCell r.referencias, causador := naCell r.causador,
    processo_envolvido := naCell r.processo_envolvido, origem := naCell r.origem,
    acao_correcao := naCell r.acao_correcao, severidade := naCell r.severidade,
    categoria := naCell r.categoria, acoes := naCell r.acoes,
    status := naCell r.status, encerrada_em := naCell r.encerrada_em,
    encerrada_por := naCell r.encerrada_por,
    encerramento_obs := naCell r.encerramento_obs, eficacia := naCell r.eficacia,
    responsavel_acao := naCell r.responsavel_acao,
    reaberta_em := naCell r.reaberta_em, reaberta_por := naCell r.reaberta_por,
    reabertura_motivo := naCell r.reabertura_motivo }

/-- The whole export-then-import pipeline: fetch_df, serialization through
the CSV layer, column normalization, then upsert_from_csv back into the same
store. -/
def exportImport (db : DB) : DB × Nat :=
  upsert_from_csv ((fetch_df db).map rowThroughCsv) db

/-- The composite effect of the pipeline on the stored data column: the
export truncation to a bare date followed by the re-import parse into a
midnight timestamp. -/
def dataRound (v : Option String) : Option String :=
  (naCell ((naCell v).map datePart)).map (fun s => s ++ " 00:00:00")

/-- A report whose stored cells survive the CSV layer unchanged: its data
value is already a midnight timestamp (or NULL) and no other cell holds an
empty string or an NA sentinel. Every field of such a report comes back from
the pipeline exactly as stored. -/
def csvStable (r : Inspecao) : Prop :=
  dataRound r.data = r.data ∧ naCellChars r.rnc_num = r.rnc_num ∧
  naCell r.emitente = r.emitente ∧ naCell r.area = r.area ∧
  naCell r.pep = r.pep ∧ naCell r.titulo = r.titulo ∧
  naCell r.responsavel = r.responsavel ∧ naCell r.descricao = r.descricao ∧
  naCell r.referencias = r.referencias ∧ naCell r.causador = r.causador ∧
  naCell r.processo_envolvido = r.processo_envolvido ∧
  naCell r.origem = r.origem ∧ naCell r.acao_correcao = r.acao_correcao ∧
  naCell r.severidade = r.severidade ∧ naCell r.categoria = r.categoria ∧
  naCell r.acoes = r.acoes ∧ naCell r.status = r.status ∧
  naCell r.encerrada_em = r.encerrada_em ∧
  naCell r.encerrada_por = r.encerrada_por ∧
  naCell r.encerramento_obs = r.encerramento_obs ∧
  naCell r.eficacia = r.eficacia ∧
  naCell r.responsavel_acao = r.responsavel_acao ∧
  naCell r.reaberta_em = r.reaberta_em ∧
  naCell r.reaberta_por = r.reaberta_por ∧
  naCell r.reabertura_motivo = r.reabertura_motivo

instance (r : Inspecao) : Decidable (csvStable r) := by
  unfold csvStable
  infer_instance

/-- Committed states of upsert_from_csv: one with-engine-begin block, hence
one transaction for the whole bulk import. -/
def upsertCommits (rows : List CsvRow) (db : DB) : List DB :=
  [(upsert_from_csv rows db).1]

/-- The new-report flow of the Nova RNC form: compute the next number for the
chosen date, then insert the report carrying that number (opening photos in
the same transaction). -/
def fileNewRnc (d : PyDate) (rec0 : InsRec) (images : List ImgUp) (db : DB) :
    DB × Str :=
  let num := next_rnc_num_for_date d db
  ((insert_inspecao { rec0 with rnc_num := some num } images db).1, num)

/-- N sequential new-report flows, each committed before the next allocation;
returns the final state and the allocated numbers in call order. -/
def fileMany (d : PyDate) (rec0 : InsRec) (images : List ImgUp) :
    Nat → DB → DB × List Str
  | 0, db => (db, [])
  | n + 1, db =>
    let p := fileNewRnc d rec0 images db
    let q := fileMany d rec0 images n p.1
    (q.1, p.2 :: q.2)

/-- The consecutive naturals s, s+1, ..., s+n-1. -/
def seqFrom (s : Nat) : Nat → List Nat
  | 0 => []
  | n + 1 => s :: seqFrom (s + 1) n

/-- The sequence value next_rnc_num_for_date formats: one when the scan is
empty, otherwise one past the scanned maximum. -/
def nextSeq (year : Nat) (vals : List Str) : Nat :=
  if rncSeqs year vals = [] then 1 else listMax (rncSeqs year vals) + 1

/-- The next-number computation claim C1 describes: scan every stored number,
keep those whose stripped form matches the anchored year regex, and format
one plus their maximum (or one when none match). -/
def claimNextNumber (year : Nat) (vals : List Str) : Str :=
  let seqs := vals.filterMap (fun v => matchYearNum year (pyStrip v))
  fmtRnc year (if seqs = [] then 1 else listMax seqs + 1)

/-- The amended scan: only stored values that already begin with the year and
a hyphen in raw form (the SQL LIKE filter) participate; among those, the
anchored regex on the stripped value supplies the numeric suffix. -/
def amendedNextNumber (year : Nat) (vals : List Str) : Str :=
  let seqs := vals.filterMap (fun v =>
    if likeYear year v then matchYearNum year (pyStrip v) else none)
  fmtRnc year (if seqs = [] then 1 else listMax seqs + 1)

/-- An insert record with every free-text field absent, as a concrete input. -/
def emptyInsRec : InsRec :=
  { data := none, rnc_num := none, emitente := none, area := none, pep := none,
    titulo := none, responsavel := none, descricao := none, referencias := none,
    causador := none, processo_envolvido := none, origem := none,
    acao_correcao := none, severidade := none, categoria := none, acoes := none,
    status := some "Aberta", responsavel_acao := none }

/-- A concrete open report numbered in year 2025. -/
def sampleReport : Inspecao :=
  { id := 1, data := none, rnc_num := some ("2025-003").toList, emitente := none,
    area := none, pep := none, titulo := some "T", responsavel := none,
    descricao := none, referencias := none, causador := none,
    processo_envolvido := none, origem := none, acao_correcao := none,
    severidade := none, categoria := none, acoes := none, status := some "Aberta",
    encerrada_em := none, encerrada_por := none, encerramento_obs := none,
    eficacia := none, responsavel_acao := none, reaberta_em := none,
    reaberta_por := none, reabertura_motivo := none }

/-- A concrete store holding one report of another year. -/
def db8 : DB := { inspecoes := [sampleReport], fotos := [], peps := [],
                  nextInspecaoId := 2, nextFotoId := 1 }

/-- A concrete closed report, its closing audit fields populated. -/
def closedReport : Inspecao :=
  { sampleReport with
      id := 2
      rnc_num := some ("2025-004").toList
      status := some "Encerrada"
      encerrada_em := some "2025-02-01"
      encerrada_por := some "Q"
      encerramento_obs := some "done"
      eficacia := some "Eficaz" }

/-- A concrete store holding one open and one closed report. -/
def db6 : DB := { inspecoes := [sampleReport, closedReport], fotos := [],
                  peps := [], nextInspecaoId := 3, nextFotoId := 1 }

/-- A concrete uploaded image. -/
def sampleImg : ImgUp := { blob := "B", name := "n.jpg", mime := "image/jpeg" }

/-- A concrete empty store. -/
def emptyDB : DB :=
  { inspecoes := [], fotos := [], peps := [], nextInspecaoId := 1, nextFotoId := 1 }

/-- A concrete report numbered 2024-001 and titled Old. -/
def reportOld : Inspecao :=
  { sampleReport with rnc_num := some ("2024-001").toList, titulo := some "Old" }

/-- A concrete store holding only reportOld. -/
def db5 : DB := { inspecoes := [reportOld], fotos := [], peps := [],
                  nextInspecaoId := 2, nextFotoId := 1 }

/-- An import row whose number equals the stored 2024-001 after trimming but
carries leading whitespace in raw form, with a different title. -/
def rowNew : CsvRow :=
  { toCsvRow reportOld with
      rnc_num := some (" 2024-001").toList
      titulo := some "New" }

/-- A concrete report with a NULL number. -/
def reportNoNum : Inspecao := { sampleReport with rnc_num := none }

/-- A concrete store holding one report with a NULL number. -/
def db9a : DB := { inspecoes := [reportNoNum], fotos := [], peps := [],
                   nextInspecaoId := 2, nextFotoId := 1 }

/-- A concrete report sharing its number with reportDupB. -/
def reportDupA : Inspecao :=
  { sampleReport with
      id := 1
      rnc_num := some ("2024-001").toList
      titulo := some "T1" }

/-- A concrete report sharing its number with reportDupA. -/
def reportDupB : Inspecao :=
  { sampleReport with
      id := 2
      rnc_num := some ("2024-001").toList
      titulo := some "T2" }

/-- A concrete store holding two reports with the same number. -/
def db9b : DB := { inspecoes := [reportDupA, reportDupB], fotos := [], peps := [],
                   nextInspecaoId := 3, nextFotoId := 1 }

/-- A concrete report whose acoes cell is the empty string, the shape every
report created by the Nova RNC form has. -/
def reportEmptyAcoes : Inspecao := { sampleReport with acoes := some "" }

/-- A concrete store holding one report with an empty-string acoes cell. -/
def db9c : DB := { inspecoes := [reportEmptyAcoes], fotos := [], peps := [],
                   nextInspecaoId := 2, nextFotoId := 1 }

/-- A concrete report whose data timestamp carries a time of day. -/
def reportTimed : Inspecao :=
  { sampleReport with data := some "2024-05-01 07:30:00" }

/-- A concrete store holding one report with a timed data value. -/
def db9d : DB := { inspecoes := [reportTimed], fotos := [], peps := [],
                   nextInspecaoId := 2, nextFotoId := 1 }

lemma natCharsAux_congr : ∀ f g n, n < f → n < g → natCharsAux f n = natCharsAux g n := by
  intro f
  induction f with
  | zero => intro g n h; omega
  | succ f ih =>
    intro g n hf hg
    cases g with
    | zero => omega
    | succ g =>
      simp only [natCharsAux]
      by_cases h10 : n < 10
      · simp [h10]
      · simp only [h10, if_false]
        have hn : 0 < n := by omega
        have hdiv : n / 10 < n := Nat.div_lt_self hn (by omega)
        rw [ih g (n / 10) (by omega) (by omega)]

lemma natChars_def (n : Nat) :
    natChars n = if n < 10 then [digitChar n] else natChars (n / 10) ++ [digitChar (n % 10)] := by
  unfold natChars
  conv_lhs => rw [natCharsAux]
  by_cases h10 : n < 10
  · simp [h10]
  · simp only [h10, if_false]
    have hn : 0 < n := by omega
    have hdiv : n / 10 < n := Nat.div_lt_self hn (by omega)
    rw [natCharsAux_congr n (n / 10 + 1) (n / 10) (by omega) (by omega)]

lemma digit_facts {m : Nat} (h : m < 10) :
    isDigitChar (digitChar m) = true ∧ isSpaceChar (digitChar m) = false ∧
      digitVal (digitChar m) = m := by
  interval_cases m <;> decide

lemma natChars_ne_nil (n : Nat) : natChars n ≠ [] := by
  rw [natChars_def]
  by_cases h10 : n < 10 <;> simp [h10]

lemma natChars_digits (n : Nat) : ∀ c ∈ natChars n, isDigitChar c = true := by
  induction n using Nat.strong_induction_on with
  | _ n ih =>
    rw [natChars_def]
    by_cases h10 : n < 10
    · simp only [h10, if_true]
      intro c hc
      simp at hc
      subst hc
      exact (digit_facts h10).1
    · simp only [h10, if_false]
      intro c hc
      rcases List.mem_append.1 hc with h | h
      · exact ih (n / 10) (Nat.div_lt_self (by omega) (by omega)) c h
      · simp at h
        subst h
        exact (digit_facts (Nat.mod_lt _ (by omega))).1

lemma isDigit_not_space {c : Char} (h : isDigitChar c = true) : isSpaceChar c = false := by
  simp only [isDigitChar, Bool.and_eq_true, decide_eq_true_eq] at h
  simp only [isSpaceChar, Bool.or_eq_false_iff, beq_eq_false_iff_ne]
  refine ⟨⟨⟨⟨⟨?_, ?_⟩, ?_⟩, ?_⟩, ?_⟩, ?_⟩ <;> (rintro rfl; revert h; decide)

lemma digitsVal_go (l : Str) (a : Nat) :
    l.foldl (fun a c => 10 * a + digitVal c) a = a * 10 ^ l.length + digitsVal l := by
  induction l generalizing a with
  | nil => simp [digitsVal]
  | cons c t ih =>
    simp only [List.foldl_cons, digitsVal, List.length_cons]
    rw [ih (10 * a + digitVal c), ih (10 * 0 + digitVal c)]
    ring

lemma digitsVal_append (l1 l2 : Str) :
    digitsVal (l1 ++ l2) = digitsVal l1 * 10 ^ l2.length + digitsVal l2 := by
  unfold digitsVal
  rw [List.foldl_append]
  exact digitsVal_go l2 _

lemma digitsVal_natChars (n : Nat) : digitsVal (natChars n) = n := by
  induction n using Nat.strong_induction_on with
  | _ n ih =>
    rw [natChars_def]
    by_cases h10 : n < 10
    · simp only [h10, if_true]
      simp [digitsVal, (digit_facts h10).2.2]
    · simp only [h10, if_false]
      rw [digitsVal_append]
      have h1 : digitsVal [digitChar (n % 10)] = n % 10 := by
        simp [digitsVal, (digit_facts (Nat.mod_lt _ (by omega : (0:Nat) < 10))).2.2]
      rw [h1, ih (n / 10) (Nat.div_lt_self (by omega) (by omega))]
      simp
      omega

lemma digitsVal_replicate_zero (k : Nat) : digitsVal (List.replicate k '0') = 0 := by
  induction k with
  | zero => rfl
  | succ k ih =>
    simp only [List.replicate_succ, digitsVal, List.foldl_cons]
    simpa [digitsVal] using ih

lemma digitsVal_pad3 (l : Str) : digitsVal (pad3 l) = digitsVal l := by
  unfold pad3
  rw [digitsVal_append, digitsVal_replicate_zero]
  simp

lemma pad3_digits (n : Nat) : ∀ c ∈ pad3 (natChars n), isDigitChar c = true := by
  intro c hc
  rcases List.mem_append.1 hc with h | h
  · have := List.eq_of_mem_replicate h
    subst this
    decide
  · exact natChars_digits n c h

lemma pad3_ne_nil (n : Nat) : pad3 (natChars n) ≠ [] := by
  unfold pad3
  intro h
  rcases List.append_eq_nil.1 h with ⟨_, h2⟩
  exact natChars_ne_nil n h2

lemma fmtRnc_assoc (y s : Nat) :
    fmtRnc y s = (natChars y ++ ['-']) ++ pad3 (natChars s) := by
  simp [fmtRnc]

lemma matchYearNum_fmt (y s : Nat) : matchYearNum y (fmtRnc y s) = some s := by
  unfold matchYearNum
  dsimp only
  rw [fmtRnc_assoc, List.take_left, List.drop_left]
  rw [if_pos]
  · rw [digitsVal_pad3, digitsVal_natChars]
  · refine ⟨rfl, pad3_ne_nil s, ?_⟩
    rw [List.all_eq_true]
    exact pad3_digits s

lemma fmtRnc_inj (y : Nat) : Function.Injective (fmtRnc y) := by
  intro a b h
  have ha := matchYearNum_fmt y a
  have hb := matchYearNum_fmt y b
  rw [h, hb] at ha
  exact (Option.some_inj.1 ha).symm

lemma likeYear_fmt (y s : Nat) : likeYear y (fmtRnc y s) = true := by
  simp only [likeYear, decide_eq_true_eq]
  rw [fmtRnc_assoc, List.take_left]

lemma fmtRnc_not_space (y s : Nat) : ∀ c ∈ fmtRnc y s, isSpaceChar c = false := by
  intro c hc
  rw [fmtRnc_assoc] at hc
  rcases List.mem_append.1 hc with h | h
  · rcases List.mem_append.1 h with h' | h'
    · exact isDigit_not_space (natChars_digits y c h')
    · simp at h'
      subst h'
      decide
  · exact isDigit_not_space (pad3_digits s c h)

lemma dropWhile_eq_self {p : Char → Bool} {l : Str} (h : ∀ c ∈ l, p c = false) :
    l.dropWhile p = l := by
  cases l with
  | nil => rfl
  | cons a t => simp [List.dropWhile_cons, h a (by simp)]

lemma pyStrip_eq_self {l : Str} (h : ∀ c ∈ l, isSpaceChar c = false) : pyStrip l = l := by
  unfold pyStrip
  rw [dropWhile_eq_self h, dropWhile_eq_self (by intro c hc; exact h c (List.mem_reverse.1 hc)),
    List.reverse_reverse]

lemma pyStrip_fmt (y s : Nat) : pyStrip (fmtRnc y s) = fmtRnc y s :=
  pyStrip_eq_self (fmtRnc_not_space y s)

lemma likeYear_nil (y : Nat) : likeYear y [] = false := by
  simp only [likeYear, List.take_nil, decide_eq_false_iff_not]
  intro h
  have h2 := List.append_eq_nil.1 h.symm
  simp at h2

lemma fmtRnc_ne_nil (y s : Nat) : fmtRnc y s ≠ [] := by
  rw [fmtRnc_assoc]
  intro h
  have h2 := List.append_eq_nil.1 h
  exact pad3_ne_nil s h2.2

lemma rncSeqs_eq (year : Nat) (vals : List Str) :
    rncSeqs year vals = vals.filterMap (fun v =>
      if likeYear year v then matchYearNum year (pyStrip v) else none) := by
  induction vals with
  | nil => rfl
  | cons v vs ih =>
    by_cases hl : likeYear year v
    · have hne : v.isEmpty = false := by
        cases v with
        | nil => rw [likeYear_nil] at hl; exact absurd hl (by simp)
        | cons a t => rfl
      simp only [rncSeqs, List.filter_filter, List.filter_cons, hl, if_true, hne,
        Bool.not_false, Bool.and_self, List.filterMap_cons] at ih ⊢
      cases hm : matchYearNum year (pyStrip v) <;> simp [hm, ih]
    · have hl' : likeYear year v = false := by simp [hl]
      simp only [rncSeqs, List.filter_filter, List.filter_cons, hl', Bool.and_false,
        if_false, List.filterMap_cons] at ih ⊢
      simp [hl', ih]

lemma rncSeqs_append (y : Nat) (l1 l2 : List Str) :
    rncSeqs y (l1 ++ l2) = rncSeqs y l1 ++ rncSeqs y l2 := by
  simp [rncSeqs, List.filter_append, List.filterMap_append]

lemma rncSeqs_single_fmt (y m : Nat) : rncSeqs y [fmtRnc y m] = [m] := by
  have hne : (fmtRnc y m).isEmpty = false := by
    cases h : fmtRnc y m with
    | nil => exact absurd h (fmtRnc_ne_nil y m)
    | cons a t => rfl
  simp only [rncSeqs, List.filter_cons, likeYear_fmt, if_true, List.filter_nil, hne,
    Bool.not_false, List.filterMap_cons, pyStrip_fmt, matchYearNum_fmt, List.filterMap_nil]

lemma listMax_append_single (l : List Nat) (a : Nat) :
    listMax (l ++ [a]) = Max.max (listMax l) a := by
  unfold listMax
  rw [List.foldl_append]
  rfl

lemma nextRnc_eq_fmt (y : Nat) (vals : List Str) :
    nextRncNum y vals = fmtRnc y (nextSeq y vals) := rfl

lemma nextSeq_step (y : Nat) (vals : List Str) :
    nextSeq y (vals ++ [fmtRnc y (nextSeq y vals)]) = nextSeq y vals + 1 := by
  unfold nextSeq
  rw [rncSeqs_append, rncSeqs_single_fmt]
  by_cases h : rncSeqs y vals = []
  · simp [h, listMax]
  · have h2 : rncSeqs y vals ++ [listMax (rncSeqs y vals) + 1] ≠ [] := by simp
    simp only [h, if_false, h2]
    rw [listMax_append_single, max_eq_right (Nat.le_succ _)]

lemma seqFrom_mem {s n m : Nat} (h : m ∈ seqFrom s n) : s ≤ m := by
  induction n generalizing s with
  | zero => simp [seqFrom] at h
  | succ n ih =>
    simp only [seqFrom, List.mem_cons] at h
    rcases h with rfl | h
    · exact le_refl m
    · exact le_trans (by omega) (ih h)

lemma seqFrom_nodup (s n : Nat) : (seqFrom s n).Nodup := by
  induction n generalizing s with
  | zero => exact List.nodup_nil
  | succ n ih =>
    simp only [seqFrom, List.nodup_cons]
    exact ⟨fun h => by have := seqFrom_mem h; omega, ih (s + 1)⟩

lemma storedNums_fileNewRnc (d : PyDate) (rec0 : InsRec) (images : List ImgUp) (db : DB) :
    storedNums (fileNewRnc d rec0 images db).1 =
      storedNums db ++ [next_rnc_num_for_date d db] := by
  simp [fileNewRnc, insert_inspecao, add_photos, storedNums, List.filterMap_append]

lemma fileMany_nums (d : PyDate) (rec0 : InsRec) (images : List ImgUp) :
    ∀ (N : Nat) (db : DB),
      (fileMany d rec0 images N db).2 =
        (seqFrom (nextSeq d.year (storedNums db)) N).map (fmtRnc d.year) := by
  intro N
  induction N with
  | zero => intro db; rfl
  | succ N ih =>
    intro db
    show (next_rnc_num_for_date d db) ::
        (fileMany d rec0 images N (fileNewRnc d rec0 images db).1).2 = _
    rw [ih, storedNums_fileNewRnc]
    show _ = fmtRnc d.year (nextSeq d.year (storedNums db)) ::
      (seqFrom (nextSeq d.year (storedNums db) + 1) N).map (fmtRnc d.year)
    rw [show next_rnc_num_for_date d db = fmtRnc d.year (nextSeq d.year (storedNums db)) from rfl,
      nextSeq_step]

/-- Claim C1, counterexample: the claim includes every stored value whose
stripped form matches the anchored year regex, but the code first applies the
raw SQL LIKE filter, so a stored number with leading whitespace is counted by
the claim and skipped by the code: on the store holding only " 2024-005" the
code returns 2024-001 while the claim computes 2024-006. -/
theorem C1_counterexample :
    nextRncNum 2024 [(" 2024-005").toList] = ("2024-001").toList ∧
    claimNextNumber 2024 [(" 2024-005").toList] = ("2024-006").toList ∧
    nextRncNum 2024 [(" 2024-005").toList] ≠ claimNextNumber 2024 [(" 2024-005").toList] := by
  decide

/-- Claim C1, amended: next_rnc_num_for_date returns the year, a hyphen and
the three-digit-padded sequence, where the sequence is one plus the maximum
suffix among stored numbers that begin with the year and hyphen in raw form
and whose stripped form matches the anchored year regex (one when none
match); non-matching stored numbers are skipped and never fail the call; on
the stored set 2024-001, 2024-abc, 2025-005 the result for 2024 is 2024-002. -/
theorem C1_amended :
    (∀ year vals, nextRncNum year vals = amendedNextNumber year vals) ∧
    (∀ d db, next_rnc_num_for_date d db = nextRncNum d.year (storedNums db)) ∧
    nextRncNum 2024
      [("2024-001").toList, ("2024-abc").toList, ("2025-005").toList] =
      ("2024-002").toList := by
  refine ⟨?_, fun d db => rfl, by decide⟩
  intro year vals
  unfold nextRncNum amendedNextNumber
  rw [rncSeqs_eq]

/-- Claim C8: starting from a store whose scan for year Y is empty, N
sequential allocate-then-commit rounds yield exactly the numbers Y-001
through Y-00N (the formatted sequence values 1 to N) in call order, pairwise
distinct, with no gaps. -/
theorem C8_sequential_allocation (d : PyDate) (rec0 : InsRec) (images : List ImgUp)
    (db : DB) (N : Nat) (h : rncSeqs d.year (storedNums db) = []) :
    (fileMany d rec0 images N db).2 = (seqFrom 1 N).map (fmtRnc d.year) ∧
    (fileMany d rec0 images N db).2.Nodup := by
  have h1 : nextSeq d.year (storedNums db) = 1 := by simp [nextSeq, h]
  have h2 := fileMany_nums d rec0 images N db
  rw [h1] at h2
  exact ⟨h2, h2 ▸ List.Nodup.map (fmtRnc_inj d.year) (seqFrom_nodup 1 N)⟩

/-- Claim C8, witness: three rounds on a store with no 2024 numbers allocate
2024-001, 2024-002, 2024-003. -/
theorem C8_witness :
    (fileMany ⟨2024, 5, 1⟩ emptyInsRec [] 3 db8).2 =
      [("2024-001").toList, ("2024-002").toList, ("2024-003").toList] ∧
    (fileMany ⟨2024, 5, 1⟩ emptyInsRec [] 3 db8).2.Nodup := by
  have h := C8_sequential_allocation ⟨2024, 5, 1⟩ emptyInsRec [] db8 3 (by decide)
  exact ⟨h.1.trans (by decide), h.2⟩

lemma map_id_of {α : Type} (l : List α) (f : α → α) (h : ∀ x ∈ l, f x = x) :
    l.map f = l := by
  induction l with
  | nil => rfl
  | cons a t ih =>
    simp only [List.map_cons, h a (by simp)]
    rw [ih (fun x hx => h x (by simp [hx]))]

lemma reabrir_inspecoes (iid : Nat) (por motivo : String) (images : List ImgUp)
    (now : String) (db : DB) :
    (reabrir_inspecao iid por motivo images now db).inspecoes =
      db.inspecoes.map (fun x => if x.id = iid then
        { x with status := some "Em ação", reaberta_em := some now,
                 reaberta_por := some por, reabertura_motivo := some motivo }
      else x) := by
  unfold reabrir_inspecao reabrirUpdate add_photos
  by_cases h : images.isEmpty <;> simp [h]

lemma encerrar_inspecoes (iid : Nat) (por obs ef : String) (images : List ImgUp)
    (now : String) (db : DB) :
    (encerrar_inspecao iid por obs ef images now db).inspecoes =
      db.inspecoes.map (fun x => if x.id = iid then
        { x with status := some "Encerrada", encerrada_em := some now,
                 encerrada_por := some por, encerramento_obs := some obs,
                 eficacia := some ef }
      else x) := by
  unfold encerrar_inspecao encerrarUpdate add_photos
  by_cases h : images.isEmpty <;> simp [h]

lemma encerrar_fotos (iid : Nat) (por obs ef : String) (images : List ImgUp)
    (now : String) (db : DB) :
    (encerrar_inspecao iid por obs ef images now db).fotos =
      db.fotos ++ mkFotos db.nextFotoId iid "encerramento" images := by
  unfold encerrar_inspecao encerrarUpdate add_photos
  by_cases h : images.isEmpty
  · have : images = [] := List.isEmpty_iff.1 h
    subst this
    simp [mkFotos]
  · simp [h]

lemma reabrir_fotos (iid : Nat) (por motivo : String) (images : List ImgUp)
    (now : String) (db : DB) :
    (reabrir_inspecao iid por motivo images now db).fotos =
      db.fotos ++ mkFotos db.nextFotoId iid "reabertura" images := by
  unfold reabrir_inspecao reabrirUpdate add_photos
  by_cases h : images.isEmpty
  · have : images = [] := List.isEmpty_iff.1 h
    subst this
    simp [mkFotos]
  · simp [h]

lemma mkFotos_fields (iid : Nat) (tipo : String) :
    ∀ (images : List ImgUp) (start : Nat) (f : Foto), f ∈ mkFotos start iid tipo images →
      f.inspecao_id = iid ∧ f.tipo = tipo := by
  intro images
  induction images with
  | nil => intro start f h; simp [mkFotos] at h
  | cons img rest ih =>
    intro start f h
    simp only [mkFotos, List.mem_cons] at h
    rcases h with rfl | h
    · exact ⟨rfl, rfl⟩
    · exact ih (start + 1) f h

lemma mkFotos_mem (iid : Nat) (tipo : String) :
    ∀ (images : List ImgUp) (start : Nat) (img : ImgUp), img ∈ images →
      ∃ fid, (⟨fid, iid, img.blob, img.name, img.mime, tipo⟩ : Foto) ∈
        mkFotos start iid tipo images := by
  intro images
  induction images with
  | nil => intro start img h; simp at h
  | cons a rest ih =>
    intro start img h
    rcases List.mem_cons.1 h with rfl | h
    · exact ⟨start, by simp [mkFotos]⟩
    · obtain ⟨fid, hf⟩ := ih (start + 1) img h
      exact ⟨fid, by simp [mkFotos, hf]⟩

lemma fetch_photos_append_other (iid : Nat) (tipo : String) (db : DB)
    (blk : List Foto) (hblk : ∀ f ∈ blk, f.tipo ≠ tipo) :
    (db.fotos ++ blk).filter (fun f => f.inspecao_id == iid && f.tipo == tipo) =
      fetch_photos iid tipo db := by
  unfold fetch_photos
  rw [List.filter_append]
  have h0 : blk.filter (fun f => f.inspecao_id == iid && f.tipo == tipo) = [] := by
    rw [List.filter_eq_nil_iff]
    intro f hf
    simp only [Bool.and_eq_true, beq_iff_eq, not_and]
    intro _
    exact hblk f hf
  rw [h0, List.append_nil]

/-- Claim C6: reopening a report that is Closed sets its status to the
In-Action value, records the reopening timestamp, actor and reason, and
leaves every other column of that report — the four closing audit fields
included — unchanged. -/
theorem C6_reopen_frame (db : DB) (r : Inspecao) (por motivo : String)
    (images : List ImgUp) (now : String)
    (hmem : r ∈ db.inspecoes) (_hst : r.status = some "Encerrada") :
    ∃ r' ∈ (reabrir_inspecao r.id por motivo images now db).inspecoes,
      r'.id = r.id ∧ r'.status = some "Em ação" ∧
      r'.reaberta_em = some now ∧ r'.reaberta_por = some por ∧
      r'.reabertura_motivo = some motivo ∧
      r'.encerrada_em = r.encerrada_em ∧ r'.encerrada_por = r.encerrada_por ∧
      r'.encerramento_obs = r.encerramento_obs ∧ r'.eficacia = r.eficacia ∧
      r'.data = r.data ∧ r'.rnc_num = r.rnc_num ∧ r'.emitente = r.emitente ∧
      r'.area = r.area ∧ r'.pep = r.pep ∧ r'.titulo = r.titulo ∧
      r'.responsavel = r.responsavel ∧ r'.descricao = r.descricao ∧
      r'.referencias = r.referencias ∧ r'.causador = r.causador ∧
      r'.processo_envolvido = r.processo_envolvido ∧ r'.origem = r.origem ∧
      r'.acao_correcao = r.acao_correcao ∧ r'.severidade = r.severidade ∧
      r'.categoria = r.categoria ∧ r'.acoes = r.acoes ∧
      r'.responsavel_acao = r.responsavel_acao := by
  rw [reabrir_inspecoes]
  refine ⟨_, List.mem_map_of_mem _ hmem, ?_⟩
  simp

/-- Claim C6, witness: reopening the concrete closed report flips its status
to In-Action, records the actor, and keeps the closing actor and verdict. -/
theorem C6_witness :
    ∃ r' ∈ (reabrir_inspecao 2 "p" "m" [] "t" db6).inspecoes,
      r'.id = 2 ∧ r'.status = some "Em ação" ∧ r'.reaberta_por = some "p" ∧
      r'.encerrada_por = some "Q" ∧ r'.eficacia = some "Eficaz" := by
  obtain ⟨r', hmem, h1, h2, h3, h4, h5, h6, h7, h8, h9, hrest⟩ :=
    C6_reopen_frame db6 closedReport "p" "m" [] "t" (by decide) (by decide)
  exact ⟨r', hmem, h1, h2, h4, h7, h9⟩

/-- Claim C7: closing a non-Closed report sets its status to Closed and
records the closing timestamp, actor, notes and verdict; every image passed
to Close is retrievable for that report under the Closing category, and the
evidence lists of every other category are untouched. -/
theorem C7_close_records_and_evidence (db : DB) (r : Inspecao) (por obs ef : String)
    (images : List ImgUp) (now : String)
    (hmem : r ∈ db.inspecoes) (_hst : r.status ≠ some "Encerrada") :
    (∃ r' ∈ (encerrar_inspecao r.id por obs ef images now db).inspecoes,
       r'.id = r.id ∧ r'.status = some "Encerrada" ∧ r'.encerrada_em = some now ∧
       r'.encerrada_por = some por ∧ r'.encerramento_obs = some obs ∧
       r'.eficacia = some ef) ∧
    (∀ img ∈ images,
       ∃ f ∈ fetch_photos r.id "encerramento" (encerrar_inspecao r.id por obs ef images now db),
         f.blob = img.blob ∧ f.filename = img.name ∧ f.mimetype = img.mime) ∧
    (∀ tipo, tipo ≠ "encerramento" →
       fetch_photos r.id tipo (encerrar_inspecao r.id por obs ef images now db) =
         fetch_photos r.id tipo db) := by
  refine ⟨?_, ?_, ?_⟩
  · rw [encerrar_inspecoes]
    refine ⟨_, List.mem_map_of_mem _ hmem, ?_⟩
    simp
  · intro img himg
    obtain ⟨fid, hf⟩ := mkFotos_mem r.id "encerramento" images db.nextFotoId img himg
    refine ⟨⟨fid, r.id, img.blob, img.name, img.mime, "encerramento"⟩, ?_, rfl, rfl, rfl⟩
    unfold fetch_photos
    rw [encerrar_fotos]
    rw [List.mem_filter]
    exact ⟨List.mem_append_right _ hf, by simp⟩
  · intro tipo htipo
    show (encerrar_inspecao r.id por obs ef images now db).fotos.filter _ = _
    rw [encerrar_fotos]
    exact fetch_photos_append_other r.id tipo db _
      (fun f hf => by
        rw [(mkFotos_fields r.id "encerramento" images db.nextFotoId f hf).2]
        exact fun h => htipo h.symm)

/-- Claim C7, witness: closing the concrete open report with one image
records the closing fields, files the image under the Closing category, and
leaves the Opening category untouched. -/
theorem C7_witness :
    (∃ r' ∈ (encerrar_inspecao 1 "q" "ok" "Eficaz" [sampleImg] "t" db8).inspecoes,
       r'.id = 1 ∧ r'.status = some "Encerrada" ∧ r'.encerrada_em = some "t" ∧
       r'.encerrada_por = some "q" ∧ r'.encerramento_obs = some "ok" ∧
       r'.eficacia = some "Eficaz") ∧
    (∃ f ∈ fetch_photos 1 "encerramento" (encerrar_inspecao 1 "q" "ok" "Eficaz" [sampleImg] "t" db8),
       f.blob = sampleImg.blob ∧ f.filename = sampleImg.name ∧ f.mimetype = sampleImg.mime) ∧
    fetch_photos 1 "abertura" (encerrar_inspecao 1 "q" "ok" "Eficaz" [sampleImg] "t" db8) =
      fetch_photos 1 "abertura" db8 := by
  have h := C7_close_records_and_evidence db8 sampleReport "q" "ok" "Eficaz" [sampleImg] "t"
    (by decide) (by decide)
  exact ⟨h.1, h.2.1 sampleImg (by decide), h.2.2 "abertura" (by decide)⟩

/-- Claim C10: calling Close or Reopen with a report id that matches no
stored report leaves the reports table unchanged and does not fail, yet
still inserts every supplied image into the evidence table keyed to that
missing id, creating orphan evidence rows. -/
theorem C10_missing_id_orphan_evidence (db : DB) (iid : Nat)
    (por obs ef motivo : String) (images : List ImgUp) (now : String)
    (h : ∀ r ∈ db.inspecoes, r.id ≠ iid) :
    (encerrar_inspecao iid por obs ef images now db).inspecoes = db.inspecoes ∧
    (encerrar_inspecao iid por obs ef images now db).fotos =
      db.fotos ++ mkFotos db.nextFotoId iid "encerramento" images ∧
    (∀ img ∈ images, ∃ f ∈ (encerrar_inspecao iid por obs ef images now db).fotos,
       f.inspecao_id = iid ∧ f.blob = img.blob) ∧
    (reabrir_inspecao iid por motivo images now db).inspecoes = db.inspecoes ∧
    (reabrir_inspecao iid por motivo images now db).fotos =
      db.fotos ++ mkFotos db.nextFotoId iid "reabertura" images ∧
    (∀ img ∈ images, ∃ f ∈ (reabrir_inspecao iid por motivo images now db).fotos,
       f.inspecao_id = iid ∧ f.blob = img.blob) := by
  refine ⟨?_, encerrar_fotos iid por obs ef images now db, ?_, ?_,
    reabrir_fotos iid por motivo images now db, ?_⟩
  · rw [encerrar_inspecoes]
    exact map_id_of _ _ (fun x hx => if_neg (h x hx))
  · intro img himg
    obtain ⟨fid, hf⟩ := mkFotos_mem iid "encerramento" images db.nextFotoId img himg
    exact ⟨⟨fid, iid, img.blob, img.name, img.mime, "encerramento"⟩,
      by rw [encerrar_fotos]; exact List.mem_append_right _ hf, rfl, rfl⟩
  · rw [reabrir_inspecoes]
    exact map_id_of _ _ (fun x hx => if_neg (h x hx))
  · intro img himg
    obtain ⟨fid, hf⟩ := mkFotos_mem iid "reabertura" images db.nextFotoId img himg
    exact ⟨⟨fid, iid, img.blob, img.name, img.mime, "reabertura"⟩,
      by rw [reabrir_fotos]; exact List.mem_append_right _ hf, rfl, rfl⟩

/-- Claim C10, witness: closing id seven, which no stored report carries,
changes no report row and still files the supplied image under that id. -/
theorem C10_witness :
    (encerrar_inspecao 7 "q" "ok" "Eficaz" [sampleImg] "t" db8).inspecoes = db8.inspecoes ∧
    (encerrar_inspecao 7 "q" "ok" "Eficaz" [sampleImg] "t" db8).fotos =
      db8.fotos ++ mkFotos db8.nextFotoId 7 "encerramento" [sampleImg] ∧
    (∃ f ∈ (encerrar_inspecao 7 "q" "ok" "Eficaz" [sampleImg] "t" db8).fotos,
       f.inspecao_id = 7 ∧ f.blob = sampleImg.blob) := by
  have h := C10_missing_id_orphan_evidence db8 7 "q" "ok" "Eficaz" "m" [sampleImg] "t" (by decide)
  exact ⟨h.1, h.2.1, h.2.2.1 sampleImg (by decide)⟩

/-- Claim C2, counterexample: the core reabrir_inspecao is not rejected on a
report whose status is Open — it flips the status to In-Action and attaches
the supplied Reopening image; only the form-level can_reopen guard blocks it. -/
theorem C2_counterexample :
    (reabrir_inspecao 1 "p" "m" [sampleImg] "t" db8).inspecoes.map (·.status) =
      [some "Em ação"] ∧
    db8.inspecoes.map (·.status) = [some "Aberta"] ∧
    (reabrir_inspecao 1 "p" "m" [sampleImg] "t" db8).inspecoes ≠ db8.inspecoes ∧
    (reabrir_inspecao 1 "p" "m" [sampleImg] "t" db8).fotos ≠ db8.fotos := by
  decide

/-- Claim C2, amended: the reject-on-non-Closed rule holds only at the UI
level: for a report whose status is not Closed the can_reopen guard is false
and the guarded form leaves the store untouched, while the core
reabrir_inspecao, called directly, still applies the transition. -/
theorem C2_amended (db : DB) (r : Inspecao) (por motivo : String)
    (images : List ImgUp) (now : String) (hst : r.status ≠ some "Encerrada") :
    can_reopen r.status = false ∧
    uiReabrir r por motivo images now db = db ∧
    (r ∈ db.inspecoes →
      ∃ r' ∈ (reabrir_inspecao r.id por motivo images now db).inspecoes,
        r'.id = r.id ∧ r'.status = some "Em ação") := by
  have hcan : can_reopen r.status = false := by
    simp only [can_reopen, beq_eq_false_iff_ne, ne_eq]
    exact hst
  refine ⟨hcan, ?_, ?_⟩
  · unfold uiReabrir
    rw [hcan]
    rfl
  · intro hmem
    rw [reabrir_inspecoes]
    exact ⟨_, List.mem_map_of_mem _ hmem, by simp⟩

/-- Claim C2, witness: on the concrete open report the guard is false, the
guarded form is a no-op, and the raw core call still reopens it. -/
theorem C2_witness :
    can_reopen sampleReport.status = false ∧
    uiReabrir sampleReport "p" "m" [sampleImg] "t" db8 = db8 ∧
    (∃ r' ∈ (reabrir_inspecao sampleReport.id "p" "m" [sampleImg] "t" db8).inspecoes,
      r'.id = sampleReport.id ∧ r'.status = some "Em ação") := by
  have h := C2_amended db8 sampleReport "p" "m" [sampleImg] "t" (by decide)
  exact ⟨h.1, h.2.1, h.2.2 (by decide)⟩

lemma encerrarCommits_spec (iid : Nat) (por obs ef : String) (imgs : List ImgUp)
    (now : String) (db : DB) :
    (encerrarCommits iid por obs ef imgs now db).getLast? =
      some (encerrar_inspecao iid por obs ef imgs now db) ∧
    (∀ d ∈ encerrarCommits iid por obs ef imgs now db,
       d.inspecoes = (encerrar_inspecao iid por obs ef imgs now db).inspecoes ∧
       (d.fotos = db.fotos ∨ d.fotos = (encerrar_inspecao iid por obs ef imgs now db).fotos)) ∧
    (imgs = [] → encerrarCommits iid por obs ef imgs now db =
       [encerrar_inspecao iid por obs ef imgs now db]) := by
  unfold encerrarCommits encerrar_inspecao
  by_cases h : imgs.isEmpty
  · simp [h, add_photos]
  · simp [h, add_photos]
    exact ⟨Or.inl rfl, by intro he; subst he; simp at h⟩

lemma reabrirCommits_spec (iid : Nat) (por motivo : String) (imgs : List ImgUp)
    (now : String) (db : DB) :
    (reabrirCommits iid por motivo imgs now db).getLast? =
      some (reabrir_inspecao iid por motivo imgs now db) ∧
    (∀ d ∈ reabrirCommits iid por motivo imgs now db,
       d.inspecoes = (reabrir_inspecao iid por motivo imgs now db).inspecoes ∧
       (d.fotos = db.fotos ∨ d.fotos = (reabrir_inspecao iid por motivo imgs now db).fotos)) ∧
    (imgs = [] → reabrirCommits iid por motivo imgs now db =
       [reabrir_inspecao iid por motivo imgs now db]) := by
  unfold reabrirCommits reabrir_inspecao
  by_cases h : imgs.isEmpty
  · simp [h, add_photos]
  · simp [h, add_photos]
    exact ⟨Or.inl rfl, by intro he; subst he; simp at h⟩

/-- Claim C3, counterexample: close-with-evidence is not one all-or-nothing
transaction: on a concrete report with one image the commit trace has two
entries, and the first visible committed state differs from the final one —
its status is already Closed while the evidence table is still the old one. -/
theorem C3_counterexample :
    (encerrarCommits 1 "q" "ok" "Eficaz" [sampleImg] "t" db8).length = 2 ∧
    (encerrarCommits 1 "q" "ok" "Eficaz" [sampleImg] "t" db8).head? ≠
      some (encerrar_inspecao 1 "q" "ok" "Eficaz" [sampleImg] "t" db8) ∧
    ((encerrarCommits 1 "q" "ok" "Eficaz" [sampleImg] "t" db8).head?.map (·.fotos)) =
      some db8.fotos ∧
    ((encerrarCommits 1 "q" "ok" "Eficaz" [sampleImg] "t" db8).head?.map
      (fun d => d.inspecoes.map (·.status))) = some [some "Encerrada"] := by
  decide

/-- Claim C3, amended: create-with-evidence and bulk upsert commit as a
single transaction each; close-with-evidence and reopen-with-evidence commit
the row update first and the evidence block in a second transaction, so the
one intermediate visible state already carries the row change and either
none or all of the new evidence; with no images they are single
transactions. -/
theorem C3_amended (rec : InsRec) (imgs : List ImgUp) (rows : List CsvRow) (db : DB)
    (iid : Nat) (por obs ef motivo now : String) :
    insertCommits rec imgs db = [(insert_inspecao rec imgs db).1] ∧
    upsertCommits rows db = [(upsert_from_csv rows db).1] ∧
    (encerrarCommits iid por obs ef imgs now db).getLast? =
      some (encerrar_inspecao iid por obs ef imgs now db) ∧
    (∀ d ∈ encerrarCommits iid por obs ef imgs now db,
       d.inspecoes = (encerrar_inspecao iid por obs ef imgs now db).inspecoes ∧
       (d.fotos = db.fotos ∨ d.fotos = (encerrar_inspecao iid por obs ef imgs now db).fotos)) ∧
    (imgs = [] → encerrarCommits iid por obs ef imgs now db =
       [encerrar_inspecao iid por obs ef imgs now db]) ∧
    (reabrirCommits iid por motivo imgs now db).getLast? =
      some (reabrir_inspecao iid por motivo imgs now db) ∧
    (∀ d ∈ reabrirCommits iid por motivo imgs now db,
       d.inspecoes = (reabrir_inspecao iid por motivo imgs now db).inspecoes ∧
       (d.fotos = db.fotos ∨ d.fotos = (reabrir_inspecao iid por motivo imgs now db).fotos)) ∧
    (imgs = [] → reabrirCommits iid por motivo imgs now db =
       [reabrir_inspecao iid por motivo imgs now db]) := by
  obtain ⟨e1, e2, e3⟩ := encerrarCommits_spec iid por obs ef imgs now db
  obtain ⟨r1, r2, r3⟩ := reabrirCommits_spec iid por motivo imgs now db
  exact ⟨rfl, rfl, e1, e2, e3, r1, r2, r3⟩

/-- Claim C3, witness: on the concrete store, an evidence-free close is a
single commit, and with one image every commit already carries the row
change and shows the old or the new evidence table. -/
theorem C3_witness :
    (encerrarCommits 1 "q" "ok" "Eficaz" [] "t" db8) =
      [encerrar_inspecao 1 "q" "ok" "Eficaz" [] "t" db8] ∧
    ((encerrarCommits 1 "q" "ok" "Eficaz" [sampleImg] "t" db8).getLast? =
      some (encerrar_inspecao 1 "q" "ok" "Eficaz" [sampleImg] "t" db8)) ∧
    (∀ d ∈ encerrarCommits 1 "q" "ok" "Eficaz" [sampleImg] "t" db8,
       d.inspecoes = (encerrar_inspecao 1 "q" "ok" "Eficaz" [sampleImg] "t" db8).inspecoes ∧
       (d.fotos = db8.fotos ∨
        d.fotos = (encerrar_inspecao 1 "q" "ok" "Eficaz" [sampleImg] "t" db8).fotos)) := by
  refine ⟨(C3_amended emptyInsRec [] [] db8 1 "q" "ok" "Eficaz" "m" "t").2.2.2.2.1 rfl, ?_, ?_⟩
  · exact (C3_amended emptyInsRec [sampleImg] [] db8 1 "q" "ok" "Eficaz" "m" "t").2.2.1
  · exact (C3_amended emptyInsRec [sampleImg] [] db8 1 "q" "ok" "Eficaz" "m" "t").2.2.2.1

/-- Claim C4, counterexample: the returned count includes candidates whose
insert was ignored as duplicates: adding A1, A1, blank, B2 to an empty store
leaves exactly the rows A1 and B2 but returns three, not two. -/
theorem C4_counterexample :
    (add_peps_bulk [("A1").toList, ("A1").toList, ("  ").toList, ("B2").toList] emptyDB).2 = 3 ∧
    (add_peps_bulk [("A1").toList, ("A1").toList, ("  ").toList, ("B2").toList] emptyDB).2 ≠ 2 ∧
    (add_peps_bulk [("A1").toList, ("A1").toList, ("  ").toList, ("B2").toList] emptyDB).1.peps =
      [("A1").toList, ("B2").toList] := by
  decide

lemma mem_foldl_pepInsertIgnore : ∀ (cs : List Str) (peps : List Str) (x : Str),
    x ∈ cs.foldl pepInsertIgnore peps ↔ x ∈ peps ∨ x ∈ cs := by
  intro cs
  induction cs with
  | nil => intro peps x; simp
  | cons c rest ih =>
    intro peps x
    simp only [List.foldl_cons, ih, List.mem_cons]
    unfold pepInsertIgnore
    by_cases h : c ∈ peps
    · rw [if_pos h]
      constructor
      · rintro (hx | hx)
        · exact Or.inl hx
        · exact Or.inr (Or.inr hx)
      · rintro (hx | rfl | hx)
        · exact Or.inl hx
        · exact Or.inl h
        · exact Or.inr hx
    · rw [if_neg h]
      simp only [List.mem_append, List.mem_singleton]
      constructor
      · rintro ((hx | rfl) | hx)
        · exact Or.inl hx
        · exact Or.inr (Or.inl rfl)
        · exact Or.inr (Or.inr hx)
      · rintro (hx | rfl | hx)
        · exact Or.inl (Or.inl hx)
        · exact Or.inl (Or.inr rfl)
        · exact Or.inr hx

lemma nodup_foldl_pepInsertIgnore : ∀ (cs : List Str) (peps : List Str),
    peps.Nodup → (cs.foldl pepInsertIgnore peps).Nodup := by
  intro cs
  induction cs with
  | nil => intro peps h; exact h
  | cons c rest ih =>
    intro peps h
    refine ih _ ?_
    unfold pepInsertIgnore
    by_cases hc : c ∈ peps
    · rw [if_pos hc]; exact h
    · rw [if_neg hc]
      simp [List.nodup_append, h, hc]

/-- Claim C4, amended: add_peps_bulk trims the candidates and drops the
blank ones, silently ignores duplicate inserts, never fails on them, and
returns the number of cleaned candidates attempted — duplicates included in
the count even though they add no row; the stored codes afterwards are
exactly the old ones plus the cleaned candidates, without duplication. -/
theorem C4_amended (db : DB) (codes : List Str) :
    (add_peps_bulk codes db).2 = (cleanCodes codes).length ∧
    (∀ c, c ∈ (add_peps_bulk codes db).1.peps ↔ c ∈ db.peps ∨ c ∈ cleanCodes codes) ∧
    (db.peps.Nodup → (add_peps_bulk codes db).1.peps.Nodup) ∧
    (add_peps_bulk codes db).1.inspecoes = db.inspecoes ∧
    (add_peps_bulk codes db).1.fotos = db.fotos := by
  unfold add_peps_bulk
  dsimp only
  by_cases h : cleanCodes codes = []
  · rw [if_pos h]
    refine ⟨by simp [h], ?_, fun hn => hn, rfl, rfl⟩
    intro c
    simp [h]
  · rw [if_neg h]
    refine ⟨rfl, ?_, ?_, rfl, rfl⟩
    · intro c
      exact mem_foldl_pepInsertIgnore _ _ c
    · intro hn
      exact nodup_foldl_pepInsertIgnore _ _ hn

/-- Claim C4, witness: adding the single code A1 to the empty store counts
one, stores A1, and keeps the stored codes duplicate-free. -/
theorem C4_witness :
    (add_peps_bulk [("A1").toList] emptyDB).2 = 1 ∧
    ("A1").toList ∈ (add_peps_bulk [("A1").toList] emptyDB).1.peps ∧
    (add_peps_bulk [("A1").toList] emptyDB).1.peps.Nodup := by
  have h := C4_amended emptyDB [("A1").toList]
  exact ⟨h.1.trans (by decide), (h.2.1 _).2 (Or.inr (by decide)), h.2.2.1 (by decide)⟩

lemma exist_lookup_some {rs : List Inspecao} {k : Str} {i : Nat}
    (h : exist_lookup rs k = some i) : ∃ s ∈ rs, keyOf s = k ∧ s.id = i := by
  unfold exist_lookup at h
  cases hf : rs.reverse.find? (fun r => keyOf r == k) with
  | none => rw [hf] at h; simp at h
  | some s =>
    rw [hf] at h
    simp at h
    refine ⟨s, List.mem_reverse.1 (List.mem_of_find?_eq_some hf), ?_, h⟩
    have hp := List.find?_some hf
    simpa using hp

lemma upsertRow_update (lk : Str → Option Nat) (db : DB) (row : CsvRow) (i : Nat)
    (hk : rowKey row ≠ []) (hlk : lk (rowKey row) = some i) :
    upsertRow lk db row =
      { db with inspecoes := db.inspecoes.map (fun r =>
          if r.id = i then applyCsv row r else r) } := by
  simp only [upsertRow, if_neg hk, hlk]

lemma upsertRow_insert (lk : Str → Option Nat) (db : DB) (row : CsvRow)
    (h : (if rowKey row = [] then none else lk (rowKey row)) = none) :
    upsertRow lk db row =
      { db with inspecoes := db.inspecoes ++ [mkInspecaoFromCsv db.nextInspecaoId row],
                nextInspecaoId := db.nextInspecaoId + 1 } := by
  simp only [upsertRow, h]

lemma eq_of_nodup_ids {l : List Inspecao} (h : (l.map (·.id)).Nodup)
    {a b : Inspecao} (ha : a ∈ l) (hb : b ∈ l) (hab : a.id = b.id) : a = b :=
  List.inj_on_of_nodup_map h ha hb hab

lemma map_proj_id (l : List Inspecao) (f : Inspecao → Inspecao)
    (h : ∀ x ∈ l, (f x).id = x.id) :
    (l.map f).map (·.id) = l.map (·.id) := by
  induction l with
  | nil => rfl
  | cons a t ih =>
    simp only [List.map_cons, h a (by simp)]
    rw [ih (fun x hx => h x (by simp [hx]))]

/-- Claim C5, amended: the import processes each row by trimmed business
key: a row whose trimmed number is nonempty and known updates the matched
report in place — same surrogate id, same row count, the same set of ids,
the stored number overwritten with the row value and hence equal to the old
one only up to trimming — while any other row is inserted at the end
carrying the imported number exactly as given; the call returns the number
of rows processed. -/
theorem C5_amended (db : DB) (row : CsvRow)
    (hid : (db.inspecoes.map (·.id)).Nodup) :
    (∀ rows : List CsvRow, (upsert_from_csv rows db).2 = rows.length) ∧
    (∀ r ∈ db.inspecoes, rowKey row ≠ [] →
       exist_lookup db.inspecoes (rowKey row) = some r.id →
       (upsert_from_csv [row] db).1.inspecoes.map (·.id) = db.inspecoes.map (·.id) ∧
       (upsert_from_csv [row] db).1.inspecoes.length = db.inspecoes.length ∧
       applyCsv row r ∈ (upsert_from_csv [row] db).1.inspecoes ∧
       (applyCsv row r).id = r.id ∧
       pyStrip ((applyCsv row r).rnc_num.getD []) = pyStrip (r.rnc_num.getD []) ∧
       (∀ s ∈ db.inspecoes, s.id ≠ r.id →
          s ∈ (upsert_from_csv [row] db).1.inspecoes)) ∧
    ((rowKey row = [] ∨ exist_lookup db.inspecoes (rowKey row) = none) →
       (upsert_from_csv [row] db).1.inspecoes =
         db.inspecoes ++ [mkInspecaoFromCsv db.nextInspecaoId row] ∧
       (mkInspecaoFromCsv db.nextInspecaoId row).rnc_num = row.rnc_num) := by
  refine ⟨fun rows => rfl, ?_, ?_⟩
  · intro r hr hk hlk
    have hstep : (upsert_from_csv [row] db).1 =
        upsertRow (exist_lookup db.inspecoes) db row := rfl
    rw [hstep, upsertRow_update _ _ _ _ hk hlk]
    have hupd : (fun x => if x.id = r.id then applyCsv row x else x) r = applyCsv row r := by
      simp
    refine ⟨?_, ?_, ?_, rfl, ?_, ?_⟩
    · exact map_proj_id _ _ (fun x hx => by by_cases hx2 : x.id = r.id <;> simp [applyCsv, hx2])
    · simp
    · exact hupd ▸ List.mem_map_of_mem _ hr
    · obtain ⟨s, hs, hks, hsi⟩ := exist_lookup_some hlk
      have hsr : s = r := eq_of_nodup_ids hid hs hr hsi
      subst hsr
      exact hks.symm
    · intro s hs hsne
      have hupds : (fun x => if x.id = r.id then applyCsv row x else x) s = s := by
        simp [hsne]
      exact hupds ▸ List.mem_map_of_mem _ hs
  · intro h
    have hnone : (if rowKey row = [] then none
        else exist_lookup db.inspecoes (rowKey row)) = none := by
      rcases h with h | h
      · rw [if_pos h]
      · by_cases hk : rowKey row = []
        · rw [if_pos hk]
        · rw [if_neg hk]; exact h
    have hstep : (upsert_from_csv [row] db).1 =
        upsertRow (exist_lookup db.inspecoes) db row := rfl
    rw [hstep, upsertRow_insert _ _ _ hnone]
    exact ⟨rfl, rfl⟩

/-- Claim C5, counterexample: on the update path the stored report number is
not left unchanged — an import row whose number matches only after trimming
overwrites the stored 2024-001 with the raw value carrying a leading space,
while updating the title in place without creating a duplicate row. -/
theorem C5_counterexample :
    (upsert_from_csv [rowNew] db5).1.inspecoes.map (fun r => (r.id, r.rnc_num, r.titulo)) =
      [(1, some ((" 2024-001").toList), some "New")] ∧
    db5.inspecoes.map (fun r => (r.id, r.rnc_num, r.titulo)) =
      [(1, some (("2024-001").toList), some "Old")] ∧
    (upsert_from_csv [rowNew] db5).1.inspecoes.map (·.rnc_num) ≠
      db5.inspecoes.map (·.rnc_num) := by
  decide

/-- Claim C5, witness: the concrete matching row takes the update path on
the concrete store: the updated report stays in place, its trimmed number is
preserved, the row count stays one, and the call counts one row. -/
theorem C5_witness :
    applyCsv rowNew reportOld ∈ (upsert_from_csv [rowNew] db5).1.inspecoes ∧
    pyStrip ((applyCsv rowNew reportOld).rnc_num.getD []) =
      pyStrip (reportOld.rnc_num.getD []) ∧
    (upsert_from_csv [rowNew] db5).1.inspecoes.length = db5.inspecoes.length ∧
    (upsert_from_csv [rowNew] db5).2 = 1 := by
  have h := C5_amended db5 rowNew (by decide)
  have h2 := h.2.1 reportOld (by decide) (by decide) (by decide)
  exact ⟨h2.2.2.1, h2.2.2.2.2.1, h2.2.1, h.1 [rowNew]⟩

lemma normalizeCol_canonical : EXPECTED_COLS.map normalizeCol = EXPECTED_COLS := by
  decide

lemma applyCsv_toCsvRow (r : Inspecao) : applyCsv (toCsvRow r) r = r := rfl

lemma rowKey_toCsvRow (r : Inspecao) : rowKey (toCsvRow r) = keyOf r := rfl

lemma find?_unique {p : Inspecao → Bool} {l : List Inspecao} {r : Inspecao}
    (hr : r ∈ l) (hp : p r = true) (huniq : ∀ s ∈ l, p s = true → s = r) :
    l.find? p = some r := by
  induction l with
  | nil => simp at hr
  | cons a t ih =>
    by_cases hpa : p a = true
    · have : a = r := huniq a (by simp) hpa
      subst this
      rw [List.find?_cons_of_pos _ hpa]
    · rw [List.find?_cons_of_neg _ hpa]
      rcases List.mem_cons.1 hr with rfl | hr2
      · exact absurd hp hpa
      · exact ih hr2 (fun s hs hps => huniq s (by simp [hs]) hps)

lemma exist_lookup_self {rs : List Inspecao}
    (hkeys : (rs.map keyOf).Nodup) {r : Inspecao} (hr : r ∈ rs) :
    exist_lookup rs (keyOf r) = some r.id := by
  unfold exist_lookup
  have huniq : ∀ s ∈ rs.reverse, (keyOf s == keyOf r) = true → s = r := by
    intro s hs hp
    have hk : keyOf s = keyOf r := by simpa using hp
    exact List.inj_on_of_nodup_map hkeys (List.mem_reverse.1 hs) hr hk
  rw [find?_unique (List.mem_reverse.2 hr) (by simp) huniq]
  rfl

lemma upsert_fixpoint (db : DB)
    (hid : (db.inspecoes.map (·.id)).Nodup)
    (hkeys : (db.inspecoes.map keyOf).Nodup)
    (hne : ∀ r ∈ db.inspecoes, keyOf r ≠ []) :
    ∀ rows : List CsvRow, (∀ row ∈ rows, ∃ r ∈ db.inspecoes, row = toCsvRow r) →
      rows.foldl (upsertRow (exist_lookup db.inspecoes)) db = db := by
  intro rows
  induction rows with
  | nil => intro _; rfl
  | cons row rest ih =>
    intro hall
    obtain ⟨r, hr, hrow⟩ := hall row (by simp)
    have hstep : upsertRow (exist_lookup db.inspecoes) db row = db := by
      subst hrow
      rw [upsertRow_update _ _ _ r.id (by rw [rowKey_toCsvRow]; exact hne r hr)
        (by rw [rowKey_toCsvRow]; exact exist_lookup_self hkeys hr)]
      have hmap : db.inspecoes.map
          (fun x => if x.id = r.id then applyCsv (toCsvRow r) x else x) = db.inspecoes := by
        apply map_id_of
        intro x hx
        by_cases hxid : x.id = r.id
        · have hxr : x = r := eq_of_nodup_ids hid hx hr hxid
          subst hxr
          rw [if_pos hxid, applyCsv_toCsvRow]
        · rw [if_neg hxid]
      rw [hmap]
    rw [List.foldl_cons, hstep]
    exact ih (fun row2 h2 => hall row2 (by simp [h2]))

lemma map_eq_map_of {α β : Type} (l : List α) (f g : α → β)
    (h : ∀ x ∈ l, f x = g x) : l.map f = l.map g := by
  induction l with
  | nil => rfl
  | cons a t ih =>
    simp only [List.map_cons, h a (by simp)]
    rw [ih (fun x hx => h x (by simp [hx]))]

lemma rowThroughCsv_stable {r : Inspecao} (h : csvStable r) :
    rowThroughCsv { r with data := (naCell r.data).map datePart } = toCsvRow r := by
  obtain ⟨h0, h1, h2, h3, h4, h5, h6, h7, h8, h9, h10, h11, h12, h13, h14, h15,
    h16, h17, h18, h19, h20, h21, h22, h23, h24⟩ := h
  unfold rowThroughCsv toCsvRow
  simp only [CsvRow.mk.injEq]
  exact ⟨h0, h1, h2, h3, h4, h5, h6, h7, h8, h9, h10, h11, h12, h13, h14, h15,
    h16, h17, h18, h19, h20, h21, h22, h23, h24⟩

end RNC
